import Mathlib

/-!
Verification of the voucher-management backend's validation and batch-ingestion
engine (Go sources under internal/service, internal/repository,
internal/delivery/http).  The Go code is shallowly embedded: each service
method becomes a pure Lean function over an explicit database state, machine
floats (`float64` discounts) are modelled by their exact rational values, and
wall-clock time is a parameter carrying the current local calendar date and
the current UTC calendar date (the two "today"s the code compares against).
-/

/-- A calendar date, as the (year, month, day) components Go's `time.Time`
exposes for a midnight value.  All `Before` comparisons in the source compare
two midnights built in the same frame of reference, so component-wise
lexicographic order is exactly `time.Time.Before` there. -/
structure Date where
  y : Nat
  m : Nat
  d : Nat
deriving DecidableEq

/-- Lexicographic strict order on dates; `Date.lt a b` models
`aMidnight.Before(bMidnight)` for midnights in a common location. -/
def Date.lt (a b : Date) : Bool :=
  Nat.blt a.y b.y ||
    (a.y == b.y && (Nat.blt a.m b.m || (a.m == b.m && Nat.blt a.d b.d)))

/-- Gregorian leap-year rule (as implemented by Go's `time` package). -/
def isLeapYear (y : Nat) : Bool :=
  y % 4 == 0 && (y % 100 != 0 || y % 400 == 0)

/-- Number of days of month `m` in year `y` (Go `time` validation). -/
def daysInMonth (y m : Nat) : Nat :=
  if m == 2 then (if isLeapYear y then 29 else 28)
  else if m == 4 || m == 6 || m == 9 || m == 11 then 30
  else 31

/-- Numeric value of a decimal digit character. -/
def digitVal (c : Char) : Nat := c.toNat - 48

/-- `time.Parse("2006-01-02", s)`: exactly 4-digit year, dash, 2-digit month,
dash, 2-digit day, with month and day range-checked against the calendar. -/
def parseDate (s : String) : Option Date :=
  match s.data with
  | [y1, y2, y3, y4, h1, m1, m2, h2, d1, d2] =>
    if y1.isDigit && y2.isDigit && y3.isDigit && y4.isDigit && h1 == '-' &&
        m1.isDigit && m2.isDigit && h2 == '-' && d1.isDigit && d2.isDigit then
      let y := ((digitVal y1 * 10 + digitVal y2) * 10 + digitVal y3) * 10 + digitVal y4
      let m := digitVal m1 * 10 + digitVal m2
      let d := digitVal d1 * 10 + digitVal d2
      if 1 ≤ m && m ≤ 12 && 1 ≤ d && d ≤ daysInMonth y m then some ⟨y, m, d⟩
      else none
    else none
  | _ => none

/-- Decimal digit characters of a natural number, most significant first
(fuel-structured so the kernel can evaluate it; `fuel` bounds the digit
count and `n + 1` always suffices). -/
def natDigitsAux : Nat → Nat → List Char → List Char
  | 0, _, acc => acc
  | fuel + 1, n, acc =>
    if n < 10 then Char.ofNat (48 + n) :: acc
    else natDigitsAux fuel (n / 10) (Char.ofNat (48 + n % 10) :: acc)

/-- Decimal rendering of a natural number. -/
def natToString (n : Nat) : String :=
  ⟨natDigitsAux (n + 1) n []⟩

/-- Zero-pad a natural number to two decimal digits. -/
def pad2 (n : Nat) : String :=
  if n < 10 then "0" ++ natToString n else natToString n

/-- Zero-pad a natural number to four decimal digits. -/
def pad4 (n : Nat) : String :=
  if n < 10 then "000" ++ natToString n
  else if n < 100 then "00" ++ natToString n
  else if n < 1000 then "0" ++ natToString n
  else natToString n

/-- `t.Format("2006-01-02")` on a midnight value with these components. -/
def formatDate (dt : Date) : String :=
  pad4 dt.y ++ "-" ++ pad2 dt.m ++ "-" ++ pad2 dt.d

/-- `strings.TrimSpace`: drop leading and trailing white space (written on
the character list so the kernel can evaluate it). -/
def trimStr (s : String) : String :=
  ⟨((s.data.dropWhile Char.isWhitespace).reverse.dropWhile Char.isWhitespace).reverse⟩

/-- Digit characters to the natural number they denote (most significant first). -/
def digitsToNat (cs : List Char) : Nat :=
  cs.foldl (fun n c => n * 10 + digitVal c) 0

/-- Exact rational value of an optionally signed decimal numeral with
integer part `ip` and `k` fractional digits of value `fp`:
`±(ip * 10^k + fp) / 10^k`. -/
def decimalValue (neg : Bool) (ip fp k : Nat) : ℚ :=
  let n : Int := Int.ofNat (ip * 10 ^ k + fp)
  mkRat (if neg then -n else n) (10 ^ k)

/-- Model of `strconv.ParseFloat(s, 64)` restricted to plain decimal notation
(optional sign, integer digits, optional fractional digits; at least one digit
overall).  The exotic forms ParseFloat also accepts (exponents, hex floats,
`Inf`, `NaN`, digit underscores) are outside the inputs this system's claims
exercise, and the value is kept as the exact rational rather than the nearest
binary64, which agrees with float64 comparison/rendering on all inputs the
proofs evaluate. -/
def parseDiscount (s : String) : Option ℚ :=
  let p : List Char → Option ℚ := fun cs =>
    let neg := cs.head? == some '-'
    let rest := match cs with
      | '-' :: t => t
      | '+' :: t => t
      | t => t
    let ipDigits := rest.takeWhile Char.isDigit
    match rest.dropWhile Char.isDigit with
    | [] =>
      if ipDigits.isEmpty then none
      else some (decimalValue neg (digitsToNat ipDigits) 0 0)
    | '.' :: frac =>
      if frac.all Char.isDigit && !(ipDigits.isEmpty && frac.isEmpty) then
        some (decimalValue neg (digitsToNat ipDigits) (digitsToNat frac) frac.length)
      else none
    | _ => none
  p s.data

/-- Round the fraction `n / d` (`d > 0`) to the nearest integer, ties to
even (the rounding `fmt.Sprintf` with verb `%.2f` applies at the last kept
digit), written on raw numerator and denominator. -/
def roundHalfEvenFrac (n : Int) (d : Nat) : Int :=
  let f : ℤ := Int.fdiv n d
  let r : ℤ := n - f * d
  if 2 * r > (d : ℤ) then f + 1
  else if 2 * r < (d : ℤ) then f
  else if f % 2 == 0 then f else f + 1

/-- `fmt.Sprintf("%.2f", x)`: fixed-point rendering with exactly two
fractional digits, rounding the exact value `q * 100` to an integer. -/
def fmt2 (q : ℚ) : String :=
  let n := roundHalfEvenFrac (q.num * 100) q.den
  let a := n.natAbs
  (if n < 0 then "-" else "") ++ natToString (a / 100) ++ "." ++ pad2 (a % 100)

/-- The persisted voucher entity (internal/domain/entity/voucher.go).
`createdAt` is a logical timestamp (larger = created later); `deleted`
models a non-null gorm `DeletedAt`. -/
structure Voucher where
  id : Nat
  voucherCode : String
  discountPercent : ℚ
  expiryDate : Date
  createdAt : Nat
  deleted : Bool
deriving DecidableEq

/-- Database state seen through the repository: the rows of the `vouchers`
table plus the id sequence and the current insertion timestamp. -/
structure DB where
  rows : List Voucher
  nextId : Nat
  now : Nat
deriving DecidableEq

/-- Rows gorm's default soft-delete scope exposes: `deleted_at IS NULL`. -/
def activeVouchers (db : DB) : List Voucher :=
  db.rows.filter (fun v => !v.deleted)

/-- Codes of the active vouchers. -/
def activeCodes (db : DB) : List String :=
  (activeVouchers db).map (fun v => v.voucherCode)

/-- Repository `FindByVoucherCode`: first active row with the code, `none`
when absent (the Go impl maps `gorm.ErrRecordNotFound` to `nil, nil`). -/
def findByVoucherCode (db : DB) (code : String) : Option Voucher :=
  (activeVouchers db).find? (fun v => v.voucherCode == code)

/-- Repository `FindByID` (soft-delete scope applies). -/
def findByID (db : DB) (id : Nat) : Option Voucher :=
  (activeVouchers db).find? (fun v => v.id == id)

/-- Repository `CheckDuplicateCodes`: `SELECT voucher_code WHERE voucher_code
IN (codes)` under the soft-delete scope — the codes of active rows whose code
occurs in the query list. -/
def checkDuplicateCodes (db : DB) (codes : List String) : List String :=
  ((activeVouchers db).filter (fun v => codes.contains v.voucherCode)).map
    (fun v => v.voucherCode)

/-- A voucher-shaped record before persistence (entity built by the service;
id and timestamps are assigned by the insert). -/
structure NewVoucher where
  voucherCode : String
  discountPercent : ℚ
  expiryDate : Date
deriving DecidableEq

/-- Repository `Create`: append the row with the next id, stamping the
current time as `createdAt`. -/
def insertOne (db : DB) (nv : NewVoucher) : DB × Voucher :=
  let v : Voucher :=
    ⟨db.nextId, nv.voucherCode, nv.discountPercent, nv.expiryDate, db.now, false⟩
  (⟨db.rows ++ [v], db.nextId + 1, db.now⟩, v)

/-- Repository `BulkCreate`: insert the batch in order. -/
def bulkInsert (db : DB) : List NewVoucher → DB
  | [] => db
  | nv :: rest => bulkInsert (insertOne db nv).1 rest

/-- Repository `Update` (gorm `Save` by primary key): replace the row with
the matching id. -/
def updateRow (db : DB) (v : Voucher) : DB :=
  ⟨db.rows.map (fun w => if w.id == v.id then v else w), db.nextId, db.now⟩

/-- The two calendar "today"s an instant determines: the local date the
Create/Update paths compare against (`time.Date(now.Year(), ..., now.Location())`)
and the UTC date the CSV/batch paths compare against
(`time.Now().Truncate(24 * time.Hour)`, which truncates to UTC midnight). -/
structure Clock where
  localToday : Date
  utcToday : Date
deriving DecidableEq

/-- `request.CreateVoucherRequest` (also the shape of
`request.UpdateVoucherRequest`, whose fields and binding tags are identical). -/
structure CreateVoucherRequest where
  voucherCode : String
  discountPercent : ℚ
  expiryDate : String
deriving DecidableEq

/-- One repository call, for stating how the services drive the collaborator. -/
inductive RepoCall where
  | findByCode (code : String)
  | findById (id : Nat)
  | createOne (nv : NewVoucher)
  | updateOne (id : Nat)
  | checkDuplicates (codes : List String)
  | bulkCreate (batch : List NewVoucher)
deriving DecidableEq

/-- Decidable equality for `Except` results (not provided by core). -/
instance instDecEqExcept {ε α : Type} [DecidableEq ε] [DecidableEq α] :
    DecidableEq (Except ε α) := fun a b =>
  match a, b with
  | .ok x, .ok y =>
    if h : x = y then .isTrue (congrArg Except.ok h)
    else .isFalse (fun hh => h (Except.ok.inj hh))
  | .error x, .error y =>
    if h : x = y then .isTrue (congrArg Except.error h)
    else .isFalse (fun hh => h (Except.error.inj hh))
  | .ok _, .error _ => .isFalse (fun hh => Except.noConfusion hh)
  | .error _, .ok _ => .isFalse (fun hh => Except.noConfusion hh)

/-- Outcome of a service call: the result, the post-state, and the repository
calls made (in order). -/
structure Out (α : Type) where
  res : Except String α
  db : DB
  calls : List RepoCall

/-- Which gin binding tag a `CreateVoucherRequest` / `UpdateVoucherRequest`
violates.  Tags (voucher_request.go): `voucher_code: required,max=50`,
`discount_percent: required,min=1,max=100`, `expiry_date: required`.
For numeric fields `required` fails exactly on the zero value. -/
inductive BindError where
  | codeRequired
  | codeTooLong
  | discountRequired
  | discountMin
  | discountMax
  | dateRequired
deriving DecidableEq

/-- Message attached to a binding rejection (gin's validator text abstracted
to the field and tag it names). -/
def bindErrMsg : BindError → String
  | .codeRequired => "Field validation for voucher_code failed on the required tag"
  | .codeTooLong => "Field validation for voucher_code failed on the max tag"
  | .discountRequired => "Field validation for discount_percent failed on the required tag"
  | .discountMin => "Field validation for discount_percent failed on the min tag"
  | .discountMax => "Field validation for discount_percent failed on the max tag"
  | .dateRequired => "Field validation for expiry_date failed on the required tag"

/-- `c.ShouldBindJSON(&req)` validation for create/update requests, checking
the struct tags field by field. -/
def bindVoucherRequest (req : CreateVoucherRequest) : Except BindError Unit :=
  if req.voucherCode = "" then .error .codeRequired
  else if req.voucherCode.length > 50 then .error .codeTooLong
  else if req.discountPercent = 0 then .error .discountRequired
  else if req.discountPercent < 1 then .error .discountMin
  else if req.discountPercent > 100 then .error .discountMax
  else if req.expiryDate = "" then .error .dateRequired
  else .ok ()

/-- The binding violation an out-of-range discount produces. -/
def discountBindError (d : ℚ) : BindError :=
  if d = 0 then .discountRequired
  else if d < 1 then .discountMin
  else .discountMax

/-- `voucherServiceImpl.Create`: duplicate-code lookup, date parse, local-day
expiry check, then single insert. -/
def serviceCreate (clock : Clock) (db : DB) (req : CreateVoucherRequest) : Out Voucher :=
  match findByVoucherCode db req.voucherCode with
  | some _ => ⟨.error "voucher code already exists", db, [.findByCode req.voucherCode]⟩
  | none =>
    match parseDate req.expiryDate with
    | none => ⟨.error "invalid date format, expected YYYY-MM-DD", db,
        [.findByCode req.voucherCode]⟩
    | some dt =>
      if Date.lt dt clock.localToday then
        ⟨.error "expiry date must be today or in the future", db,
          [.findByCode req.voucherCode]⟩
      else
        let nv : NewVoucher := ⟨req.voucherCode, req.discountPercent, dt⟩
        let ins := insertOne db nv
        ⟨.ok ins.2, ins.1, [.findByCode req.voucherCode, .createOne nv]⟩

/-- `voucherServiceImpl.Update`: find by id, duplicate-code lookup only when
the code changes, date parse, local-day expiry check, then save. -/
def serviceUpdate (clock : Clock) (db : DB) (id : Nat) (req : CreateVoucherRequest) :
    Out Voucher :=
  match findByID db id with
  | none => ⟨.error "voucher not found", db, [.findById id]⟩
  | some v =>
    let dupCalls : List RepoCall :=
      if req.voucherCode == v.voucherCode then [] else [.findByCode req.voucherCode]
    let dupHit : Bool :=
      if req.voucherCode == v.voucherCode then false
      else (findByVoucherCode db req.voucherCode).isSome
    if dupHit then
      ⟨.error "voucher code already exists", db, .findById id :: dupCalls⟩
    else
      match parseDate req.expiryDate with
      | none => ⟨.error "invalid date format, expected YYYY-MM-DD", db,
          .findById id :: dupCalls⟩
      | some dt =>
        if Date.lt dt clock.localToday then
          ⟨.error "expiry date must be today or in the future", db,
            .findById id :: dupCalls⟩
        else
          let v2 : Voucher :=
            ⟨v.id, req.voucherCode, req.discountPercent, dt, v.createdAt, v.deleted⟩
          ⟨.ok v2, updateRow db v2, .findById id :: dupCalls ++ [.updateOne v2.id]⟩

/-- The full single-create operation (`VoucherHandler.Create`): request
binding, then the service call. -/
def CreateOp (clock : Clock) (db : DB) (req : CreateVoucherRequest) : Out Voucher :=
  match bindVoucherRequest req with
  | .error e => ⟨.error (bindErrMsg e), db, []⟩
  | .ok _ => serviceCreate clock db req

/-- The full single-update operation (`VoucherHandler.Update`): request
binding, then the service call. -/
def UpdateOp (clock : Clock) (db : DB) (id : Nat) (req : CreateVoucherRequest) :
    Out Voucher :=
  match bindVoucherRequest req with
  | .error e => ⟨.error (bindErrMsg e), db, []⟩
  | .ok _ => serviceUpdate clock db id req

/-- `voucherServiceImpl.validateAndConvert`: the batch-path validator (code
emptiness and length, discount range, date format, UTC-day expiry check; no
uniqueness lookup). -/
def validateAndConvert (clock : Clock) (req : CreateVoucherRequest) :
    Except String NewVoucher :=
  if req.voucherCode = "" then .error "voucher code is required"
  else if req.voucherCode.length > 50 then .error "voucher code exceeds 50 characters"
  else if req.discountPercent < 1 ∨ req.discountPercent > 100 then
    .error ("discount percent " ++ fmt2 req.discountPercent ++
      " out of range (must be 1-100)")
  else
    match parseDate req.expiryDate with
    | none => .error ("invalid date format '" ++ req.expiryDate ++
        "': expected YYYY-MM-DD")
    | some dt =>
      if Date.lt dt clock.utcToday then
        .error ("expiry date " ++ req.expiryDate ++ " must be today or in the future")
      else .ok ⟨req.voucherCode, req.discountPercent, dt⟩

/-- `voucherServiceImpl.parseCSVRow`: column count, trimmed code checks,
per-row duplicate lookup, discount parse and range, date parse and UTC-day
expiry check. -/
def parseCSVRow (clock : Clock) (db : DB) (record : List String) :
    Except String NewVoucher × List RepoCall :=
  match record with
  | c0 :: c1 :: c2 :: _ =>
    let code := trimStr c0
    if code = "" then (.error "voucher code is required", [])
    else if code.length > 50 then (.error "voucher code exceeds 50 characters", [])
    else
      match findByVoucherCode db code with
      | some _ => (.error ("voucher code '" ++ code ++ "' already exists"),
          [.findByCode code])
      | none =>
        let dstr := trimStr c1
        match parseDiscount dstr with
        | none => (.error ("invalid discount percent '" ++ dstr ++
            "': must be a number"), [.findByCode code])
        | some dq =>
          if dq < 1 ∨ dq > 100 then
            (.error ("discount percent " ++ fmt2 dq ++ " out of range (must be 1-100)"),
              [.findByCode code])
          else
            let estr := trimStr c2
            match parseDate estr with
            | none => (.error ("invalid date format '" ++ estr ++
                "': expected YYYY-MM-DD"), [.findByCode code])
            | some dt =>
              if Date.lt dt clock.utcToday then
                (.error ("expiry date " ++ estr ++ " must be today or in the future"),
                  [.findByCode code])
              else (.ok ⟨code, dq, dt⟩, [.findByCode code])
  | _ => (.error "insufficient columns (expected 3: voucher_code, discount_percent, expiry_date)", [])

/-- One entry of the CSV import error report (Go `ImportError`; its message
field is named `Error` in the source). -/
structure ImportError where
  row : Nat
  message : String
deriving DecidableEq

/-- Go `ImportResult`. -/
structure ImportResult where
  totalRows : Nat
  success : Nat
  failed : Nat
  errors : List ImportError
deriving DecidableEq

/-- The per-row loop of `ImportVouchers`: data rows in order, numbering from
`rowNum` (the header is row 1, so the loop starts at 2); a failing row is
recorded and skipped, never aborting the rest. -/
def csvLoop (clock : Clock) (db : DB) :
    List (List String) → Nat → List ImportError × List NewVoucher × List RepoCall
  | [], _ => ([], [], [])
  | r :: rs, rowNum =>
    let here := parseCSVRow clock db r
    let rest := csvLoop clock db rs (rowNum + 1)
    match here.1 with
    | .error e => (⟨rowNum, e⟩ :: rest.1, rest.2.1, here.2 ++ rest.2.2)
    | .ok v => (rest.1, v :: rest.2.1, here.2 ++ rest.2.2)

/-- `voucherServiceImpl.ImportVouchers` on the parsed CSV records (the
`csv.Reader.ReadAll` output).  `bulkFail` injects the persistence
collaborator's answer to the final `BulkCreate` call: `some e` is a failure
with error `e`, `none` is success. -/
def ImportVouchers (clock : Clock) (db : DB) (records : List (List String))
    (bulkFail : Option String) : Out ImportResult :=
  if records.length < 2 then ⟨.error "CSV file is empty or has no data rows", db, []⟩
  else if (csvLoop clock db (records.drop 1) 2).2.1 = [] then
    ⟨.ok ⟨records.length - 1, 0, (csvLoop clock db (records.drop 1) 2).1.length,
        (csvLoop clock db (records.drop 1) 2).1⟩,
      db, (csvLoop clock db (records.drop 1) 2).2.2⟩
  else
    match bulkFail with
    | some e => ⟨.error ("failed to insert vouchers: " ++ e), db,
        (csvLoop clock db (records.drop 1) 2).2.2 ++
          [.bulkCreate (csvLoop clock db (records.drop 1) 2).2.1]⟩
    | none =>
      ⟨.ok ⟨records.length - 1, (csvLoop clock db (records.drop 1) 2).2.1.length,
          (csvLoop clock db (records.drop 1) 2).1.length,
          (csvLoop clock db (records.drop 1) 2).1⟩,
        bulkInsert db (csvLoop clock db (records.drop 1) 2).2.1,
        (csvLoop clock db (records.drop 1) 2).2.2 ++
          [.bulkCreate (csvLoop clock db (records.drop 1) 2).2.1]⟩

/-- Go `BatchImportResult`. -/
structure BatchImportResult where
  totalReceived : Nat
  inserted : Nat
  duplicates : Nat
  duplicateCodes : List String
  errors : List String
deriving DecidableEq

/-- Accumulated per-candidate outcomes of the `ImportBatch` loop. -/
structure BatchAcc where
  dups : Nat
  dupCodes : List String
  errs : List String
  valid : List NewVoucher
deriving DecidableEq

/-- The per-candidate loop of `ImportBatch` (candidates in order): a
candidate whose code is in the duplicate set is counted and recorded;
otherwise it is validated, with failures appended as `"Code c: reason"` and
successes accumulated for the bulk insert. -/
def batchLoop (clock : Clock) (isDup : String → Bool) :
    List CreateVoucherRequest → BatchAcc
  | [] => ⟨0, [], [], []⟩
  | r :: rs =>
    let rest := batchLoop clock isDup rs
    if isDup r.voucherCode then
      ⟨rest.dups + 1, r.voucherCode :: rest.dupCodes, rest.errs, rest.valid⟩
    else
      match validateAndConvert clock r with
      | .error e =>
        ⟨rest.dups, rest.dupCodes, ("Code " ++ r.voucherCode ++ ": " ++ e) :: rest.errs,
          rest.valid⟩
      | .ok v => ⟨rest.dups, rest.dupCodes, rest.errs, v :: rest.valid⟩

/-- Steps 1–4 of `voucherServiceImpl.ImportBatch`: one batched existence
query over all candidate codes, then the per-candidate loop against that
duplicate set. -/
def batchAcc (clock : Clock) (db : DB) (reqs : List CreateVoucherRequest) : BatchAcc :=
  batchLoop clock
    (fun c => (checkDuplicateCodes db (reqs.map (fun r => r.voucherCode))).contains c)
    reqs

/-- `voucherServiceImpl.ImportBatch` (continued): assemble the report from
the loop's accumulator, bulk-inserting the valid candidates when there are
any (`bulkFail` as in `ImportVouchers`). -/
def ImportBatch (clock : Clock) (db : DB) (reqs : List CreateVoucherRequest)
    (bulkFail : Option String) : Out BatchImportResult :=
  if (batchAcc clock db reqs).valid = [] then
    ⟨.ok ⟨reqs.length, 0, (batchAcc clock db reqs).dups,
        (batchAcc clock db reqs).dupCodes, (batchAcc clock db reqs).errs⟩,
      db, [.checkDuplicates (reqs.map (fun r => r.voucherCode))]⟩
  else
    match bulkFail with
    | some e => ⟨.error e, db,
        [.checkDuplicates (reqs.map (fun r => r.voucherCode)),
          .bulkCreate (batchAcc clock db reqs).valid]⟩
    | none =>
      ⟨.ok ⟨reqs.length, (batchAcc clock db reqs).valid.length,
          (batchAcc clock db reqs).dups, (batchAcc clock db reqs).dupCodes,
          (batchAcc clock db reqs).errs⟩,
        bulkInsert db (batchAcc clock db reqs).valid,
        [.checkDuplicates (reqs.map (fun r => r.voucherCode)),
          .bulkCreate (batchAcc clock db reqs).valid]⟩

/-- Ascending sort by creation time (`ORDER BY created_at asc`). -/
def sortByCreated (l : List Voucher) : List Voucher :=
  l.insertionSort (fun a b => a.createdAt ≤ b.createdAt)

/-- The rows `ExportVouchers` fetches: `FindAll(1, 100000, "", "created_at",
"asc")`, i.e. the active vouchers sorted ascending by creation time, offset 0,
limited to the first 100000. -/
def exportRows (db : DB) : List Voucher :=
  (sortByCreated (activeVouchers db)).take 100000

/-- The CSV header row written by `ExportVouchers`. -/
def csvHeader : List String := ["voucher_code", "discount_percent", "expiry_date"]

/-- The record `ExportVouchers` writes for one voucher: code, `%.2f`
discount, `2006-01-02` date. -/
def voucherRecord (v : Voucher) : List String :=
  [v.voucherCode, fmt2 v.discountPercent, formatDate v.expiryDate]

/-- The records of the export document: header first, then one per fetched
voucher. -/
def exportRecords (db : DB) : List (List String) :=
  csvHeader :: (exportRows db).map voucherRecord

/-- Whether `encoding/csv` quotes a field (contains comma, quote, CR or LF,
is the literal `\.`, or starts with white space). -/
def fieldNeedsQuotes (f : String) : Bool :=
  if f = "" then false
  else
    f == "\\." ||
      f.data.any (fun c => c == ',' || c == '"' || c == '\r' || c == '\n') ||
      (match f.data.head? with
       | some c => c.isWhitespace
       | none => false)

/-- Double the quotes of a field rendered inside a quoted CSV field. -/
def escapeField (f : String) : String :=
  ⟨f.data.foldr (fun c acc => if c == '"' then '"' :: '"' :: acc else c :: acc) []⟩

/-- Render one CSV field as `csv.Writer` does (UseCRLF is false). -/
def renderField (f : String) : String :=
  if fieldNeedsQuotes f then "\"" ++ escapeField f ++ "\"" else f

/-- Render one CSV record: comma-joined fields and a LF terminator. -/
def renderRecord (r : List String) : String :=
  String.intercalate "," (r.map renderField) ++ "\n"

/-- Serialize records to the delimited-text document. -/
def csvSerialize (rs : List (List String)) : String :=
  String.join (rs.map renderRecord)

/-- `voucherServiceImpl.ExportVouchers`: the serialized export document. -/
def ExportVouchers (db : DB) : String :=
  csvSerialize (exportRecords db)

/-- Whether a repository call is the batched existence query. -/
def isDupCheckCall : RepoCall → Bool
  | .checkDuplicates _ => true
  | _ => false

/-- Whether a repository call is a single-code lookup. -/
def isFindByCodeCall : RepoCall → Bool
  | .findByCode _ => true
  | _ => false

/-- Whether validation accepts a candidate (Boolean form of
`validateAndConvert` succeeding). -/
def vcPass (clock : Clock) (r : CreateVoucherRequest) : Bool :=
  match validateAndConvert clock r with
  | .ok _ => true
  | .error _ => false

/-- The rows a bulk insert appends: each candidate stamped with consecutive
ids and the shared insertion timestamp. -/
def stampAll (id now : Nat) : List NewVoucher → List Voucher
  | [] => []
  | nv :: rest =>
    ⟨id, nv.voucherCode, nv.discountPercent, nv.expiryDate, now, false⟩ ::
      stampAll (id + 1) now rest

/-- The CSV scenario of the spec: header plus three data rows. -/
def csvScenarioRecords : List (List String) :=
  [["voucher_code", "discount_percent", "expiry_date"],
   ["DISC10", "10.00", "2099-01-01"],
   ["", "20", "2099-01-01"],
   ["BAD", "200", "2099-01-01"]]

/-- A sample instant for witnesses: local and UTC dates agree. -/
def wClock : Clock := ⟨⟨2025, 1, 1⟩, ⟨2025, 1, 1⟩⟩

/-- A sample one-voucher state for witnesses. -/
def wDB : DB := ⟨[⟨1, "OLD", 10, ⟨2099, 1, 1⟩, 0, false⟩], 2, 5⟩

/-- An instant at which the local calendar date is one day ahead of the UTC
calendar date (e.g. a UTC+14 evening). -/
def aheadClock : Clock := ⟨⟨2025, 6, 2⟩, ⟨2025, 6, 1⟩⟩

/-- A candidate whose expiry date is strictly before `aheadClock`'s local
today but equal to its UTC today. -/
def aheadReq : CreateVoucherRequest := ⟨"A", 10, "2025-06-01"⟩

/-- The `i`-th filler voucher of the large-state counterexamples. -/
def mkNth (i : Nat) : Voucher :=
  ⟨i + 1, "C" ++ natToString i, 10, ⟨2099, 1, 1⟩, i, false⟩

/-- A state with 100001 active vouchers — one more than the export page cap. -/
def bigDB : DB := ⟨(List.range 100001).map mkNth, 100002, 200000⟩

/-- A state with exactly 100000 active vouchers, all created before the
current instant. -/
def preDB : DB := ⟨(List.range 100000).map mkNth, 100001, 100000⟩

/-- A fresh CSV data row whose code is not yet stored. -/
def newRecord : List String := ["NEW", "10", "2099-01-01"]

/-! ## Helper lemmas -/

theorem findByVoucherCode_eq_none {db : DB} {code : String}
    (h : code ∉ activeCodes db) : findByVoucherCode db code = none := by
  apply List.find?_eq_none.mpr
  intro v hv hbeq
  exact h (List.mem_map.mpr ⟨v, hv, (beq_iff_eq.mp hbeq)⟩)

theorem mem_checkDuplicateCodes {db : DB} {codes : List String} {c : String} :
    c ∈ checkDuplicateCodes db codes ↔ c ∈ codes ∧ c ∈ activeCodes db := by
  unfold checkDuplicateCodes activeCodes
  constructor
  · intro h
    rcases List.mem_map.mp h with ⟨v, hv, hc⟩
    rcases List.mem_filter.mp hv with ⟨hva, hcontains⟩
    subst hc
    exact ⟨List.elem_iff.mp hcontains, List.mem_map.mpr ⟨v, hva, rfl⟩⟩
  · rintro ⟨hcodes, hactive⟩
    rcases List.mem_map.mp hactive with ⟨v, hva, hc⟩
    subst hc
    exact List.mem_map.mpr ⟨v, List.mem_filter.mpr ⟨hva, List.elem_iff.mpr hcodes⟩, rfl⟩

theorem batchLoop_spec (clock : Clock) (p : String → Bool)
    (rs : List CreateVoucherRequest) :
    (batchLoop clock p rs).dups = rs.countP (fun r => p r.voucherCode) ∧
    (batchLoop clock p rs).errs.length =
      rs.countP (fun r => !p r.voucherCode && !vcPass clock r) ∧
    (batchLoop clock p rs).valid.length =
      rs.countP (fun r => !p r.voucherCode && vcPass clock r) := by
  induction rs with
  | nil => simp [batchLoop]
  | cons r rs ih =>
    by_cases hp : p r.voucherCode
    · simp [batchLoop, hp, ih.1, ih.2.1, ih.2.2, List.countP_cons]
    · cases hv : validateAndConvert clock r with
      | ok v =>
        simp [batchLoop, hp, hv, vcPass, ih.1, ih.2.1, ih.2.2, List.countP_cons]
      | error e =>
        simp [batchLoop, hp, hv, vcPass, ih.1, ih.2.1, ih.2.2, List.countP_cons]

theorem countP_partition (p q : CreateVoucherRequest → Bool)
    (rs : List CreateVoucherRequest) :
    rs.countP p + rs.countP (fun r => !p r && !q r) + rs.countP (fun r => !p r && q r) =
      rs.length := by
  induction rs with
  | nil => simp
  | cons r rs ih =>
    by_cases hp : p r <;> by_cases hq : q r <;>
      simp [List.countP_cons, hp, hq] <;> omega

/-! ## C1: discount out of range is rejected by Create, Update and the batch
validator -/

/-- C1: a candidate with `discountPercent` outside [1, 100] but a valid code
and expiry date is rejected — without touching the database — by the
single-create operation and the single-update operation (the request binding
fails on the discount field), and by the batch validator (the explicit range
check); none of the three persists it. -/
theorem c1_discount_out_of_range_rejected (clock : Clock) (db : DB) (id : Nat)
    (req : CreateVoucherRequest) (dt : Date)
    (hd : req.discountPercent < 1 ∨ req.discountPercent > 100)
    (hc1 : req.voucherCode ≠ "") (hc2 : req.voucherCode.length ≤ 50)
    (hdt : parseDate req.expiryDate = some dt)
    (hnp : Date.lt dt clock.localToday = false ∧ Date.lt dt clock.utcToday = false) :
    CreateOp clock db req =
      ⟨.error (bindErrMsg (discountBindError req.discountPercent)), db, []⟩ ∧
    UpdateOp clock db id req =
      ⟨.error (bindErrMsg (discountBindError req.discountPercent)), db, []⟩ ∧
    validateAndConvert clock req =
      .error ("discount percent " ++ fmt2 req.discountPercent ++
        " out of range (must be 1-100)") := by
  have h50 : ¬ (req.voucherCode.length > 50) := by omega
  have hb : bindVoucherRequest req = .error (discountBindError req.discountPercent) := by
    unfold bindVoucherRequest discountBindError
    rcases hd with h | h
    · by_cases h0 : req.discountPercent = 0
      · simp [hc1, h50, h0]
      · simp [hc1, h50, h0, h]
    · have h0 : req.discountPercent ≠ 0 := by
        intro h0
        rw [h0] at h
        norm_num at h
      have h1 : ¬ (req.discountPercent < 1) := by linarith
      have h2 : ¬ (req.discountPercent > 100 → False) := by simp [h]
      simp [hc1, h50, h0, h1, h]
  refine ⟨?_, ?_, ?_⟩
  · simp [CreateOp, hb]
  · simp [UpdateOp, hb]
  · unfold validateAndConvert
    simp [hc1, h50, if_pos hd]

/-- Witness for C1 at discount 200. -/
theorem c1_witness :
    ((200 : ℚ) < 1 ∨ (200 : ℚ) > 100) ∧
    (CreateOp wClock wDB ⟨"A", 200, "2099-01-01"⟩ =
      ⟨.error (bindErrMsg (discountBindError 200)), wDB, []⟩ ∧
    UpdateOp wClock wDB 1 ⟨"A", 200, "2099-01-01"⟩ =
      ⟨.error (bindErrMsg (discountBindError 200)), wDB, []⟩ ∧
    validateAndConvert wClock ⟨"A", 200, "2099-01-01"⟩ =
      .error ("discount percent " ++ fmt2 200 ++ " out of range (must be 1-100)")) :=
  ⟨Or.inr (by norm_num),
    c1_discount_out_of_range_rejected wClock wDB 1 ⟨"A", 200, "2099-01-01"⟩
      ⟨2099, 1, 1⟩ (Or.inr (by norm_num)) (by decide) (by decide) (by decide)
      ⟨by decide, by decide⟩⟩

/-! ## C2: the structured batch report counts duplicates, validation
failures and inserts as a partition of the batch -/

/-- C2: for every structured batch, `ImportBatch` (with the bulk insert
succeeding) reports `duplicates` = the number of candidates whose code
belongs to an existing active voucher, `errors` = the non-duplicate
candidates failing validation, `inserted = N - duplicates - failures`, and
the three outcomes partition the batch. -/
theorem c2_importBatch_report (clock : Clock) (db : DB)
    (reqs : List CreateVoucherRequest) :
    ∃ rep, (ImportBatch clock db reqs none).res = .ok rep ∧
      rep.totalReceived = reqs.length ∧
      rep.duplicates =
        reqs.countP (fun r => (activeCodes db).contains r.voucherCode) ∧
      rep.errors.length =
        reqs.countP (fun r =>
          !(activeCodes db).contains r.voucherCode && !vcPass clock r) ∧
      rep.inserted = reqs.length - rep.duplicates - rep.errors.length ∧
      rep.duplicates + rep.errors.length + rep.inserted = rep.totalReceived := by
  have hpt : ∀ r ∈ reqs,
      ((checkDuplicateCodes db (reqs.map (fun r => r.voucherCode))).contains
        r.voucherCode) = ((activeCodes db).contains r.voucherCode) := by
    intro r hr
    rw [Bool.eq_iff_iff]
    simp only [List.contains, List.elem_iff]
    exact ⟨fun hc => (mem_checkDuplicateCodes.mp hc).2,
      fun hm => mem_checkDuplicateCodes.mpr ⟨List.mem_map.mpr ⟨r, hr, rfl⟩, hm⟩⟩
  have hspec := batchLoop_spec clock
    (fun c => (checkDuplicateCodes db (reqs.map (fun r => r.voucherCode))).contains c)
    reqs
  have hdup : (batchAcc clock db reqs).dups =
      reqs.countP (fun r => (activeCodes db).contains r.voucherCode) := by
    unfold batchAcc
    rw [hspec.1]
    exact List.countP_congr (fun r hr => by rw [hpt r hr])
  have herr : (batchAcc clock db reqs).errs.length =
      reqs.countP (fun r =>
        !(activeCodes db).contains r.voucherCode && !vcPass clock r) := by
    unfold batchAcc
    rw [hspec.2.1]
    exact List.countP_congr (fun r hr => by rw [hpt r hr])
  have hval : (batchAcc clock db reqs).valid.length =
      reqs.countP (fun r =>
        !(activeCodes db).contains r.voucherCode && vcPass clock r) := by
    unfold batchAcc
    rw [hspec.2.2]
    exact List.countP_congr (fun r hr => by rw [hpt r hr])
  have hsum := countP_partition (fun r => (activeCodes db).contains r.voucherCode)
    (fun r => vcPass clock r) reqs
  unfold ImportBatch
  by_cases hempty : (batchAcc clock db reqs).valid = []
  · rw [if_pos hempty]
    have hv0 : (batchAcc clock db reqs).valid.length = 0 := by rw [hempty]; rfl
    refine ⟨_, rfl, rfl, hdup, herr, ?_, ?_⟩ <;> dsimp only <;> omega
  · rw [if_neg hempty]
    refine ⟨_, rfl, rfl, hdup, herr, ?_, ?_⟩ <;> dsimp only <;> omega

/-! ## C7: duplicate resolution is one batched existence query -/

/-- C7: `ImportBatch` makes exactly one batched existence-check call, whose
argument is the full list of candidate codes, and never a per-code lookup;
and the repository's answer is exactly the subset of the queried codes that
belong to active vouchers. -/
theorem c7_single_batched_existence_query (clock : Clock) (db : DB)
    (reqs : List CreateVoucherRequest) (bulkFail : Option String) :
    (ImportBatch clock db reqs bulkFail).calls.filter isDupCheckCall =
      [.checkDuplicates (reqs.map (fun r => r.voucherCode))] ∧
    (ImportBatch clock db reqs bulkFail).calls.filter isFindByCodeCall = [] ∧
    (∀ c, c ∈ checkDuplicateCodes db (reqs.map (fun r => r.voucherCode)) ↔
      (c ∈ reqs.map (fun r => r.voucherCode) ∧ c ∈ activeCodes db)) := by
  refine ⟨?_, ?_, fun c => mem_checkDuplicateCodes⟩
  all_goals
    unfold ImportBatch
    by_cases h : (batchAcc clock db reqs).valid = []
  · rw [if_pos h]
    simp [isDupCheckCall]
  · rw [if_neg h]
    cases bulkFail <;> simp [isDupCheckCall]
  · rw [if_pos h]
    simp [isFindByCodeCall]
  · rw [if_neg h]
    cases bulkFail <;> simp [isFindByCodeCall]

/-! ## C10: intra-batch code collisions are not detected by ImportBatch -/

/-- All-valid batches convert wholesale: when no candidate code is a stored
duplicate and every candidate validates, the loop reports no duplicates and
accumulates every candidate, preserving order and codes. -/
theorem batchLoop_all_valid (clock : Clock) (p : String → Bool)
    (rs : List CreateVoucherRequest)
    (h : ∀ r ∈ rs, p r.voucherCode = false ∧ vcPass clock r = true) :
    (batchLoop clock p rs).dups = 0 ∧
    (batchLoop clock p rs).dupCodes = [] ∧
    (batchLoop clock p rs).errs = [] ∧
    (batchLoop clock p rs).valid.length = rs.length ∧
    (batchLoop clock p rs).valid.map (fun nv => nv.voucherCode) =
      rs.map (fun r => r.voucherCode) := by
  induction rs with
  | nil => simp [batchLoop]
  | cons r rs ih =>
    have hr := h r (List.mem_cons_self r rs)
    have hrest := ih (fun x hx => h x (List.mem_cons_of_mem r hx))
    cases hv : validateAndConvert clock r with
    | ok v =>
      have hcode : v.voucherCode = r.voucherCode := by
        unfold validateAndConvert at hv
        split at hv
        · exact absurd hv (by simp)
        · split at hv
          · exact absurd hv (by simp)
          · split at hv
            · exact absurd hv (by simp)
            · split at hv
              · exact absurd hv (by simp)
              · split at hv
                · exact absurd hv (by simp)
                · cases hv
                  rfl
      simp [batchLoop, hr.1, hv, hrest.1, hrest.2.1, hrest.2.2.1,
        hrest.2.2.2.1, hrest.2.2.2.2, hcode]
    | error e =>
      have : vcPass clock r = false := by simp [vcPass, hv]
      rw [hr.2] at this
      cases this

/-- C10: a structured batch holding two candidates with the same unstored
code (both valid) yields no duplicates; every candidate — collisions
included — is handed to the single bulk-insert call.  Intra-batch collisions
are invisible to the application layer. -/
theorem c10_intra_batch_collisions_inserted (clock : Clock) (db : DB)
    (reqs : List CreateVoucherRequest)
    (hall : ∀ r ∈ reqs, r.voucherCode ∉ activeCodes db ∧ vcPass clock r = true)
    (hcol : ∃ i j : Fin reqs.length, i ≠ j ∧
      (reqs.get i).voucherCode = (reqs.get j).voucherCode) :
    ∃ rep, (ImportBatch clock db reqs none).res = .ok rep ∧
      rep.duplicates = 0 ∧ rep.duplicateCodes = [] ∧ rep.errors = [] ∧
      rep.inserted = reqs.length ∧
      (∃ batch, RepoCall.bulkCreate batch ∈ (ImportBatch clock db reqs none).calls ∧
        batch.map (fun nv => nv.voucherCode) = reqs.map (fun r => r.voucherCode)) := by
  have hp : ∀ r ∈ reqs,
      ((checkDuplicateCodes db (reqs.map (fun r => r.voucherCode))).contains
        r.voucherCode) = false := by
    intro r hr
    rw [← Bool.not_eq_true]
    intro hc
    simp only [List.contains, List.elem_iff] at hc
    exact (hall r hr).1 (mem_checkDuplicateCodes.mp hc).2
  have hloop0 := batchLoop_all_valid clock
    (fun c => (checkDuplicateCodes db (reqs.map (fun r => r.voucherCode))).contains c)
    reqs (fun r hr => ⟨hp r hr, (hall r hr).2⟩)
  have hloop : (batchAcc clock db reqs).dups = 0 ∧
      (batchAcc clock db reqs).dupCodes = [] ∧
      (batchAcc clock db reqs).errs = [] ∧
      (batchAcc clock db reqs).valid.length = reqs.length ∧
      (batchAcc clock db reqs).valid.map (fun nv => nv.voucherCode) =
        reqs.map (fun r => r.voucherCode) := by
    unfold batchAcc
    exact hloop0
  have hne : reqs.length ≠ 0 := by
    rcases hcol with ⟨i, _, _⟩
    intro h0
    rw [h0] at i
    exact absurd i.2 (by omega)
  have hnempty : ¬ (batchAcc clock db reqs).valid = [] := by
    intro h0
    have := hloop.2.2.2.1
    rw [h0] at this
    simp at this
    omega
  refine ⟨⟨reqs.length, (batchAcc clock db reqs).valid.length,
      (batchAcc clock db reqs).dups, (batchAcc clock db reqs).dupCodes,
      (batchAcc clock db reqs).errs⟩,
    ?_, hloop.1, hloop.2.1, hloop.2.2.1, hloop.2.2.2.1, ?_⟩
  · unfold ImportBatch
    rw [if_neg hnempty]
  · refine ⟨(batchAcc clock db reqs).valid, ?_, hloop.2.2.2.2⟩
    unfold ImportBatch
    rw [if_neg hnempty]
    simp

/-- Witness for C10: two identical valid candidates with an unstored code
are both inserted, none counted duplicate. -/
theorem c10_witness :
    (∀ r ∈ ([⟨"A", 10, "2099-01-01"⟩, ⟨"A", 10, "2099-01-01"⟩] :
        List CreateVoucherRequest),
      r.voucherCode ∉ activeCodes wDB ∧ vcPass wClock r = true) ∧
    (∃ rep, (ImportBatch wClock wDB
        [⟨"A", 10, "2099-01-01"⟩, ⟨"A", 10, "2099-01-01"⟩] none).res = .ok rep ∧
      rep.duplicates = 0 ∧ rep.duplicateCodes = [] ∧ rep.errors = [] ∧
      rep.inserted = 2 ∧
      (∃ batch, RepoCall.bulkCreate batch ∈ (ImportBatch wClock wDB
          [⟨"A", 10, "2099-01-01"⟩, ⟨"A", 10, "2099-01-01"⟩] none).calls ∧
        batch.map (fun nv => nv.voucherCode) = ["A", "A"])) :=
  ⟨by decide,
    c10_intra_batch_collisions_inserted wClock wDB
      [⟨"A", 10, "2099-01-01"⟩, ⟨"A", 10, "2099-01-01"⟩] (by decide)
      ⟨⟨0, by decide⟩, ⟨1, by decide⟩, by decide, by decide⟩⟩

/-! ## C5: a failing bulk insert aborts the whole batch and loses the report -/

/-- A row accepted by CSV validation contributes its voucher to the loop's
insert list. -/
theorem csvLoop_valid_mem (clock : Clock) (db : DB) (rs : List (List String))
    (n : Nat) (r : List String) (hr : r ∈ rs) (v : NewVoucher)
    (hok : (parseCSVRow clock db r).1 = .ok v) :
    v ∈ (csvLoop clock db rs n).2.1 := by
  induction rs generalizing n with
  | nil => cases hr
  | cons s rs ih =>
    rcases List.mem_cons.mp hr with h | h
    · subst h
      simp only [csvLoop, hok]
      exact List.mem_cons_self v _
    · have := ih (n + 1) h
      simp only [csvLoop]
      cases hs : (parseCSVRow clock db s).1 with
      | error e => simpa [hs] using ih (n + 1) h
      | ok w => simpa [hs] using List.mem_cons_of_mem w (ih (n + 1) h)

/-- A non-duplicate candidate accepted by validation contributes its voucher
to the batch loop's insert list. -/
theorem batchLoop_valid_mem (clock : Clock) (p : String → Bool)
    (rs : List CreateVoucherRequest) (r : CreateVoucherRequest) (hr : r ∈ rs)
    (hp : p r.voucherCode = false) (v : NewVoucher)
    (hok : validateAndConvert clock r = .ok v) :
    v ∈ (batchLoop clock p rs).valid := by
  induction rs with
  | nil => cases hr
  | cons s rs ih =>
    rcases List.mem_cons.mp hr with h | h
    · subst h
      simp only [batchLoop, hp, hok]
      simp
    · simp only [batchLoop]
      by_cases hps : p s.voucherCode
      · simpa [hps] using ih h
      · cases hs : validateAndConvert clock s with
        | error e => simpa [hps, hs] using ih h
        | ok w => simpa [hps, hs] using List.mem_cons_of_mem w (ih h)

/-- C5: when at least one record passes validation and the single bulk-insert
collaborator call fails, both import paths return only the error — the
already-computed per-row report (counts and error list) is not returned. -/
theorem c5_bulk_insert_failure_loses_report (clock : Clock) (db : DB)
    (records : List (List String)) (reqs : List CreateVoucherRequest) (e : String)
    (hlen : 2 ≤ records.length)
    (hcsv : ∃ r ∈ records.drop 1, ∃ v, (parseCSVRow clock db r).1 = .ok v)
    (hbatch : ∃ r ∈ reqs,
      ((checkDuplicateCodes db (reqs.map (fun r => r.voucherCode))).contains
        r.voucherCode) = false ∧
      ∃ v, validateAndConvert clock r = .ok v) :
    (ImportVouchers clock db records (some e)).res =
      .error ("failed to insert vouchers: " ++ e) ∧
    (ImportBatch clock db reqs (some e)).res = .error e := by
  constructor
  · rcases hcsv with ⟨r, hr, v, hok⟩
    have hmem := csvLoop_valid_mem clock db (records.drop 1) 2 r hr v hok
    unfold ImportVouchers
    rw [if_neg (by omega), if_neg (List.ne_nil_of_mem hmem)]
  · rcases hbatch with ⟨r, hr, hp, v, hok⟩
    have hmem := batchLoop_valid_mem clock
      (fun c => (checkDuplicateCodes db (reqs.map (fun r => r.voucherCode))).contains c)
      reqs r hr hp v hok
    unfold ImportBatch
    rw [if_neg (List.ne_nil_of_mem (by exact hmem))]

/-- Witness for C5: one valid CSV row and one valid candidate, bulk insert
failing with "boom". -/
theorem c5_witness :
    (2 ≤ csvScenarioRecords.length) ∧
    (ImportVouchers wClock wDB csvScenarioRecords (some "boom")).res =
      .error ("failed to insert vouchers: " ++ "boom") ∧
    (ImportBatch wClock wDB [⟨"A", 10, "2099-01-01"⟩] (some "boom")).res =
      .error "boom" :=
  ⟨by decide,
    c5_bulk_insert_failure_loses_report wClock wDB csvScenarioRecords
      [⟨"A", 10, "2099-01-01"⟩] "boom" (by decide)
      ⟨["DISC10", "10.00", "2099-01-01"], by decide,
        ⟨"DISC10", 10, ⟨2099, 1, 1⟩⟩, by decide⟩
      ⟨⟨"A", 10, "2099-01-01"⟩, by decide, by decide,
        ⟨"A", 10, ⟨2099, 1, 1⟩⟩, by decide⟩⟩

/-! ## C6: Update skips the duplicate-code lookup iff the code is unchanged -/

/-- C6: for an `Update` on an existing voucher with a binding-valid request:
if the candidate code equals the stored code, no find-by-code lookup is made
and the update succeeds for any valid expiry; if the code differs, the same
find-by-code duplicate check as Create runs, and the update fails without a
write when an active voucher holds that code. -/
theorem c6_update_duplicate_check_policy (clock : Clock) (db : DB) (id : Nat)
    (req : CreateVoucherRequest) (v : Voucher)
    (hfind : findByID db id = some v)
    (hbind : bindVoucherRequest req = .ok ()) :
    (req.voucherCode = v.voucherCode →
      (∀ c, RepoCall.findByCode c ∉ (UpdateOp clock db id req).calls) ∧
      (∀ dt, parseDate req.expiryDate = some dt →
        Date.lt dt clock.localToday = false →
        ∃ v2, (UpdateOp clock db id req).res = .ok v2)) ∧
    (req.voucherCode ≠ v.voucherCode →
      RepoCall.findByCode req.voucherCode ∈ (UpdateOp clock db id req).calls ∧
      (∀ w, findByVoucherCode db req.voucherCode = some w →
        (UpdateOp clock db id req).res = .error "voucher code already exists" ∧
        (UpdateOp clock db id req).db = db)) := by
  have hop : UpdateOp clock db id req = serviceUpdate clock db id req := by
    unfold UpdateOp
    rw [hbind]
  rw [hop]
  constructor
  · intro heq
    have hbeq : (req.voucherCode == v.voucherCode) = true := beq_iff_eq.mpr heq
    constructor
    · intro c
      unfold serviceUpdate
      rw [hfind]
      simp only [hbeq, if_true, ite_true]
      cases hpd : parseDate req.expiryDate with
      | none => simp
      | some dt =>
        by_cases hlt : Date.lt dt clock.localToday <;> simp [hlt]
    · intro dt hdt hlt
      unfold serviceUpdate
      rw [hfind]
      simp only [hbeq, if_true, ite_true, hdt, hlt]
      simp [hlt]
  · intro hne
    have hbeq : (req.voucherCode == v.voucherCode) = false := by
      rw [← Bool.not_eq_true]
      intro hb
      exact hne (beq_iff_eq.mp hb)
    constructor
    · unfold serviceUpdate
      rw [hfind]
      simp only [hbeq]
      cases hw : findByVoucherCode db req.voucherCode with
      | some w => simp
      | none =>
        cases hpd : parseDate req.expiryDate with
        | none => simp
        | some dt =>
          by_cases hlt : Date.lt dt clock.localToday <;> simp [hlt]
    · intro w hw
      unfold serviceUpdate
      rw [hfind]
      simp only [hbeq, hw]
      simp [hw]

/-- Witness for C6: the spec's scenario — code unchanged, discount changed
to 50 — succeeds with no duplicate-code lookup. -/
theorem c6_witness :
    findByID wDB 1 = some ⟨1, "OLD", 10, ⟨2099, 1, 1⟩, 0, false⟩ ∧
    ((("OLD" : String) = "OLD" →
      (∀ c, RepoCall.findByCode c ∉
        (UpdateOp wClock wDB 1 ⟨"OLD", 50, "2099-01-01"⟩).calls) ∧
      (∀ dt, parseDate "2099-01-01" = some dt →
        Date.lt dt wClock.localToday = false →
        ∃ v2, (UpdateOp wClock wDB 1 ⟨"OLD", 50, "2099-01-01"⟩).res = .ok v2)) ∧
    (("OLD" : String) ≠ "OLD" →
      RepoCall.findByCode "OLD" ∈
        (UpdateOp wClock wDB 1 ⟨"OLD", 50, "2099-01-01"⟩).calls ∧
      (∀ w, findByVoucherCode wDB "OLD" = some w →
        (UpdateOp wClock wDB 1 ⟨"OLD", 50, "2099-01-01"⟩).res =
          .error "voucher code already exists" ∧
        (UpdateOp wClock wDB 1 ⟨"OLD", 50, "2099-01-01"⟩).db = wDB))) :=
  ⟨by decide,
    c6_update_duplicate_check_policy wClock wDB 1 ⟨"OLD", 50, "2099-01-01"⟩
      ⟨1, "OLD", 10, ⟨2099, 1, 1⟩, 0, false⟩ (by decide) (by decide)⟩

/-! ## C3: expiry comparison — local day for Create/Update, UTC day for
CSV/batch validation -/

/-- C3 counterexample: at an instant where the local calendar date
(2025-06-02) is one day ahead of the UTC calendar date (2025-06-01) — any
zone ahead of UTC shortly after local midnight — a candidate expiring
2025-06-01 parses, is strictly before the local today, yet batch validation
accepts it: `validateAndConvert` compares against the 24-hour-truncated
(UTC) day, not the local day the claim prescribes. -/
theorem c3_counterexample :
    parseDate aheadReq.expiryDate = some ⟨2025, 6, 1⟩ ∧
    Date.lt ⟨2025, 6, 1⟩ aheadClock.localToday = true ∧
    validateAndConvert aheadClock aheadReq = .ok ⟨"A", 10, ⟨2025, 6, 1⟩⟩ := by
  decide

/-- C3 amended: for candidates with a parseable date and otherwise valid
fields, Create and Update gate on the *local* calendar date (reject iff
strictly before local today, accept when equal), while the CSV row validator
and the batch validator gate on the *UTC* calendar date obtained by 24-hour
truncation (reject iff strictly before UTC today); the four paths agree only
when the two dates coincide. -/
theorem c3_amended_expiry_gates (clock : Clock) (dbC dbU dbR : DB) (id : Nat)
    (req : CreateVoucherRequest) (v : Voucher) (dt : Date)
    (hdt : parseDate req.expiryDate = some dt)
    (hnoDup : findByVoucherCode dbC req.voucherCode = none)
    (hfind : findByID dbU id = some v) (hsame : req.voucherCode = v.voucherCode)
    (c0 c1 c2 : String) (dq : ℚ) (dt2 : Date)
    (hrc : trimStr c0 ≠ "") (hrc2 : (trimStr c0).length ≤ 50)
    (hrDup : findByVoucherCode dbR (trimStr c0) = none)
    (hrd : parseDiscount (trimStr c1) = some dq)
    (hrdq : ¬(dq < 1 ∨ dq > 100))
    (hcode1 : req.voucherCode ≠ "") (hcode2 : req.voucherCode.length ≤ 50)
    (hdisc : ¬(req.discountPercent < 1 ∨ req.discountPercent > 100))
    (hre : parseDate (trimStr c2) = some dt2) :
    ((serviceCreate clock dbC req).res =
      if Date.lt dt clock.localToday then
        .error "expiry date must be today or in the future"
      else .ok ⟨dbC.nextId, req.voucherCode, req.discountPercent, dt, dbC.now, false⟩) ∧
    ((serviceUpdate clock dbU id req).res =
      if Date.lt dt clock.localToday then
        .error "expiry date must be today or in the future"
      else .ok ⟨v.id, req.voucherCode, req.discountPercent, dt, v.createdAt, v.deleted⟩) ∧
    (validateAndConvert clock req =
      if Date.lt dt clock.utcToday then
        .error ("expiry date " ++ req.expiryDate ++ " must be today or in the future")
      else .ok ⟨req.voucherCode, req.discountPercent, dt⟩) ∧
    ((parseCSVRow clock dbR [c0, c1, c2]).1 =
      if Date.lt dt2 clock.utcToday then
        .error ("expiry date " ++ trimStr c2 ++ " must be today or in the future")
      else .ok ⟨trimStr c0, dq, dt2⟩) := by
  have h50 : ¬ (req.voucherCode.length > 50) := by omega
  have hr50 : ¬ ((trimStr c0).length > 50) := by omega
  refine ⟨?_, ?_, ?_, ?_⟩
  · unfold serviceCreate
    rw [hnoDup, hdt]
    by_cases hlt : Date.lt dt clock.localToday <;> simp [hlt, insertOne]
  · have hbeq : (req.voucherCode == v.voucherCode) = true := beq_iff_eq.mpr hsame
    unfold serviceUpdate
    rw [hfind]
    simp only [hbeq, if_true, ite_true, hdt]
    by_cases hlt : Date.lt dt clock.localToday <;> simp [hlt]
  · unfold validateAndConvert
    rw [if_neg hcode1, if_neg h50, if_neg hdisc, hdt]
  · unfold parseCSVRow
    dsimp only
    rw [if_neg hrc, if_neg hr50, hrDup, hrd]
    dsimp only
    rw [if_neg hrdq, hre]
    dsimp only
    by_cases hlt : Date.lt dt2 clock.utcToday <;> simp [hlt]

/-- Witness for the amended C3 at the local-ahead-of-UTC instant: the same
calendar date is rejected by the local-day paths and accepted by the UTC-day
paths. -/
theorem c3_amended_witness :
    (serviceCreate aheadClock ⟨[], 1, 0⟩ ⟨"OLD", 10, "2025-06-01"⟩).res =
      .error "expiry date must be today or in the future" ∧
    (serviceUpdate aheadClock wDB 1 ⟨"OLD", 10, "2025-06-01"⟩).res =
      .error "expiry date must be today or in the future" ∧
    validateAndConvert aheadClock ⟨"OLD", 10, "2025-06-01"⟩ =
      .ok ⟨"OLD", 10, ⟨2025, 6, 1⟩⟩ ∧
    (parseCSVRow aheadClock ⟨[], 1, 0⟩ ["NEW", "10", "2025-06-01"]).1 =
      .ok ⟨"NEW", 10, ⟨2025, 6, 1⟩⟩ := by
  have h := c3_amended_expiry_gates aheadClock ⟨[], 1, 0⟩ wDB ⟨[], 1, 0⟩ 1
    ⟨"OLD", 10, "2025-06-01"⟩ ⟨1, "OLD", 10, ⟨2099, 1, 1⟩, 0, false⟩ ⟨2025, 6, 1⟩
    (by decide) (by decide) (by decide) (by decide)
    "NEW" "10" "2025-06-01" 10 ⟨2025, 6, 1⟩
    (by decide) (by decide) (by decide) (by decide) (by decide)
    (by decide) (by decide) (by decide) (by decide)
  exact ⟨h.1, h.2.1, h.2.2.1, h.2.2.2⟩

/-! ## C4: the CSV scenario — one good row, two bad rows, no abort -/

/-- C4: on the header-plus-three-rows file with codes DISC10/""/BAD (none
stored), CSV import reports totalRows 3, success 1, failed 2, and the error
list names row 3 (empty code) and row 4 (discount 200 out of range) — the
row-3 failure did not abort processing of row 4. -/
theorem c4_csv_scenario (clock : Clock) (db : DB)
    (h1 : findByVoucherCode db "DISC10" = none)
    (h2 : findByVoucherCode db "BAD" = none)
    (hd : Date.lt ⟨2099, 1, 1⟩ clock.utcToday = false) :
    (ImportVouchers clock db csvScenarioRecords none).res =
      .ok ⟨3, 1, 2, [⟨3, "voucher code is required"⟩,
        ⟨4, "discount percent 200.00 out of range (must be 1-100)"⟩]⟩ := by
  have r1 : parseCSVRow clock db ["DISC10", "10.00", "2099-01-01"] =
      (.ok ⟨"DISC10", 10, ⟨2099, 1, 1⟩⟩, [.findByCode "DISC10"]) := by
    unfold parseCSVRow
    simp +decide [show trimStr "DISC10" = "DISC10" from by decide,
      show trimStr "10.00" = "10.00" from by decide,
      show trimStr "2099-01-01" = "2099-01-01" from by decide,
      h1, show parseDiscount "10.00" = some 10 from by decide,
      show parseDate "2099-01-01" = some ⟨2099, 1, 1⟩ from by decide, hd]
  have r2 : parseCSVRow clock db ["", "20", "2099-01-01"] =
      (.error "voucher code is required", []) := by
    unfold parseCSVRow
    simp +decide
  have r3 : parseCSVRow clock db ["BAD", "200", "2099-01-01"] =
      (.error "discount percent 200.00 out of range (must be 1-100)",
        [.findByCode "BAD"]) := by
    unfold parseCSVRow
    simp +decide [show trimStr "BAD" = "BAD" from by decide,
      show trimStr "200" = "200" from by decide, h2,
      show parseDiscount "200" = some 200 from by decide,
      show fmt2 200 = "200.00" from by decide]
  unfold ImportVouchers
  rw [if_neg (by decide : ¬ csvScenarioRecords.length < 2)]
  rw [show csvScenarioRecords.drop 1 =
    [["DISC10", "10.00", "2099-01-01"], ["", "20", "2099-01-01"],
     ["BAD", "200", "2099-01-01"]] from by decide]
  simp only [csvLoop, r1, r2, r3]
  simp +decide

/-- Witness for C4 on a state holding only the unrelated code OLD. -/
theorem c4_witness :
    findByVoucherCode wDB "DISC10" = none ∧
    (ImportVouchers wClock wDB csvScenarioRecords none).res =
      .ok ⟨3, 1, 2, [⟨3, "voucher code is required"⟩,
        ⟨4, "discount percent 200.00 out of range (must be 1-100)"⟩]⟩ :=
  ⟨by decide, c4_csv_scenario wClock wDB (by decide) (by decide) (by decide)⟩

/-! ## C8: the export document — header plus one row per active voucher,
within the 100000-row page cap -/

/-- A positive-fuel `natDigitsAux` call on a one-digit number emits that
digit. -/
theorem natDigitsAux_one_digit (fuel n : Nat) (acc : List Char) (hf : 0 < fuel)
    (h : n < 10) : natDigitsAux fuel n acc = Char.ofNat (48 + n) :: acc := by
  cases fuel with
  | zero => omega
  | succ f =>
    unfold natDigitsAux
    rw [if_pos h]

/-- `pad2` of a two-digit bound renders exactly the two digit characters. -/
theorem pad2_eq_two_digits (n : Nat) (h : n < 100) :
    pad2 n = ⟨[Char.ofNat (48 + n / 10), Char.ofNat (48 + n % 10)]⟩ := by
  by_cases h10 : n < 10
  · have hd : n / 10 = 0 := Nat.div_eq_of_lt h10
    have hm : n % 10 = n := Nat.mod_eq_of_lt h10
    unfold pad2 natToString
    rw [if_pos h10, natDigitsAux_one_digit (n + 1) n [] (by omega) h10]
    rw [hd, hm]
    rfl
  · obtain ⟨m, rfl⟩ : ∃ m, n = m + 1 := ⟨n - 1, by omega⟩
    unfold pad2 natToString
    rw [if_neg h10]
    unfold natDigitsAux
    rw [if_neg h10]
    rw [natDigitsAux_one_digit (m + 1) ((m + 1) / 10)
      [Char.ofNat (48 + (m + 1) % 10)] (by omega) (by omega)]

/-- C8 amended: for a state with at most 100000 active vouchers (the export
page cap), the export document is the header followed by exactly one record
per active voucher, in ascending creation-time order, each record being the
code, the `%.2f` discount (a string ending in a dot and exactly two digits),
and the `YYYY-MM-DD` date. -/
theorem c8_amended_export_shape (db : DB)
    (hcap : (activeVouchers db).length ≤ 100000) :
    ∃ rows : List Voucher, exportRecords db = csvHeader :: rows.map voucherRecord ∧
      rows.Perm (activeVouchers db) ∧
      rows.Pairwise (fun a b => a.createdAt ≤ b.createdAt) ∧
      (∀ v ∈ rows, ∃ ip n, n < 100 ∧ fmt2 v.discountPercent =
        ip ++ "." ++ ⟨[Char.ofNat (48 + n / 10), Char.ofNat (48 + n % 10)]⟩) ∧
      (∀ v ∈ rows, voucherRecord v =
        [v.voucherCode, fmt2 v.discountPercent, formatDate v.expiryDate]) ∧
      ExportVouchers db = csvSerialize (exportRecords db) := by
  refine ⟨sortByCreated (activeVouchers db), ?_, ?_, ?_, ?_, fun v _ => rfl, rfl⟩
  · unfold exportRecords exportRows
    rw [List.take_of_length_le]
    unfold sortByCreated
    rw [List.length_insertionSort]
    exact hcap
  · exact List.perm_insertionSort _ _
  · haveI : IsTotal Voucher (fun a b => a.createdAt ≤ b.createdAt) :=
      ⟨fun a b => Nat.le_total a.createdAt b.createdAt⟩
    haveI : IsTrans Voucher (fun a b => a.createdAt ≤ b.createdAt) :=
      ⟨fun _ _ _ hab hbc => Nat.le_trans hab hbc⟩
    exact List.sorted_insertionSort _ _
  · intro v _
    refine ⟨(if roundHalfEvenFrac (v.discountPercent.num * 100) v.discountPercent.den < 0
        then "-" else "") ++
      natToString ((roundHalfEvenFrac (v.discountPercent.num * 100)
        v.discountPercent.den).natAbs / 100),
      (roundHalfEvenFrac (v.discountPercent.num * 100)
        v.discountPercent.den).natAbs % 100,
      Nat.mod_lt _ (by norm_num), ?_⟩
    unfold fmt2
    dsimp only
    rw [pad2_eq_two_digits _ (Nat.mod_lt _ (by norm_num))]

/-- Witness for the amended C8 on the one-voucher state. -/
theorem c8_amended_witness :
    ∃ rows : List Voucher, exportRecords wDB = csvHeader :: rows.map voucherRecord ∧
      rows.Perm (activeVouchers wDB) ∧
      rows.Pairwise (fun a b => a.createdAt ≤ b.createdAt) ∧
      (∀ v ∈ rows, ∃ ip n, n < 100 ∧ fmt2 v.discountPercent =
        ip ++ "." ++ ⟨[Char.ofNat (48 + n / 10), Char.ofNat (48 + n % 10)]⟩) ∧
      (∀ v ∈ rows, voucherRecord v =
        [v.voucherCode, fmt2 v.discountPercent, formatDate v.expiryDate]) ∧
      ExportVouchers wDB = csvSerialize (exportRecords wDB) :=
  c8_amended_export_shape wDB (by decide)

/-- The filler states are entirely active. -/
theorem activeVouchers_range_map (n nid now : Nat) :
    activeVouchers ⟨(List.range n).map mkNth, nid, now⟩ =
      (List.range n).map mkNth := by
  unfold activeVouchers
  apply List.filter_eq_self.mpr
  intro v hv
  rcases List.mem_map.mp hv with ⟨i, _, rfl⟩
  rfl

/-- C8 counterexample: on a state with 100001 active vouchers the export
document has only 100001 lines (header plus 100000 rows), not one row per
active voucher — the `FindAll(1, 100000, ...)` page cap drops the rest, so
the claim fails for this state. -/
theorem c8_counterexample :
    (exportRecords bigDB).length ≠ 1 + (activeVouchers bigDB).length := by
  have hact : activeVouchers bigDB = (List.range 100001).map mkNth :=
    activeVouchers_range_map 100001 100002 200000
  have hlen : (activeVouchers bigDB).length = 100001 := by
    rw [hact, List.length_map, List.length_range]
  have hexp : (exportRecords bigDB).length = 100001 := by
    unfold exportRecords exportRows sortByCreated
    rw [List.length_cons, List.length_map, List.length_take,
      List.length_insertionSort, hlen]
    decide
  rw [hexp, hlen]
  omega

/-! ## C9: import-then-export round trip (within the export page cap) -/

/-- Inversion of an accepted CSV row: the record has three columns and the
voucher's fields are the trimmed code, the parsed discount and the parsed
date of that row. -/
theorem parseCSVRow_ok_inv (clock : Clock) (db : DB) (r : List String)
    (v : NewVoucher) (h : (parseCSVRow clock db r).1 = .ok v) :
    ∃ c0 c1 c2 rest, r = c0 :: c1 :: c2 :: rest ∧
      v.voucherCode = trimStr c0 ∧
      parseDiscount (trimStr c1) = some v.discountPercent ∧
      parseDate (trimStr c2) = some v.expiryDate := by
  match r with
  | [] => exact absurd h (by simp [parseCSVRow])
  | [a] => exact absurd h (by simp [parseCSVRow])
  | [a, b] => exact absurd h (by simp [parseCSVRow])
  | c0 :: c1 :: c2 :: rest =>
    refine ⟨c0, c1, c2, rest, rfl, ?_⟩
    unfold parseCSVRow at h
    dsimp only at h
    by_cases h1 : trimStr c0 = ""
    · rw [if_pos h1] at h
      exact absurd h (by simp)
    rw [if_neg h1] at h
    by_cases h2 : (trimStr c0).length > 50
    · rw [if_pos h2] at h
      exact absurd h (by simp)
    rw [if_neg h2] at h
    cases hf : findByVoucherCode db (trimStr c0) with
    | some w =>
      rw [hf] at h
      exact absurd h (by simp)
    | none =>
      rw [hf] at h
      dsimp only at h
      cases hpd : parseDiscount (trimStr c1) with
      | none =>
        rw [hpd] at h
        exact absurd h (by simp)
      | some dq =>
        rw [hpd] at h
        dsimp only at h
        by_cases h3 : dq < 1 ∨ dq > 100
        · rw [if_pos h3] at h
          exact absurd h (by simp)
        rw [if_neg h3] at h
        cases hpe : parseDate (trimStr c2) with
        | none =>
          rw [hpe] at h
          exact absurd h (by simp)
        | some dt =>
          rw [hpe] at h
          dsimp only at h
          by_cases h4 : Date.lt dt clock.utcToday = true
          · rw [if_pos h4] at h
            exact absurd h (by simp)
          rw [if_neg h4] at h
          dsimp only at h
          have hv := (Except.ok.inj h).symm
          subst hv
          refine ⟨rfl, ?_, ?_⟩
          · exact rfl
          · exact rfl

/-- Rows already present survive a bulk insert. -/
theorem bulkInsert_rows_mono (vs : List NewVoucher) (db : DB) (w : Voucher)
    (h : w ∈ db.rows) : w ∈ (bulkInsert db vs).rows := by
  induction vs generalizing db with
  | nil => exact h
  | cons nv rest ih =>
    apply ih
    unfold insertOne
    exact List.mem_append_left _ h

/-- Every bulk-inserted candidate appears among the resulting rows, with its
code, discount and expiry preserved and not deleted. -/
theorem bulkInsert_mem (vs : List NewVoucher) (db : DB) (nv : NewVoucher)
    (h : nv ∈ vs) :
    ∃ w ∈ (bulkInsert db vs).rows, w.voucherCode = nv.voucherCode ∧
      w.discountPercent = nv.discountPercent ∧ w.expiryDate = nv.expiryDate ∧
      w.deleted = false := by
  induction vs generalizing db with
  | nil => cases h
  | cons x rest ih =>
    rcases List.mem_cons.mp h with rfl | hmem
    · refine ⟨⟨db.nextId, nv.voucherCode, nv.discountPercent, nv.expiryDate,
        db.now, false⟩, ?_, rfl, rfl, rfl, rfl⟩
      show (⟨db.nextId, nv.voucherCode, nv.discountPercent, nv.expiryDate,
        db.now, false⟩ : Voucher) ∈ (bulkInsert (insertOne db nv).1 rest).rows
      apply bulkInsert_rows_mono
      unfold insertOne
      dsimp only
      exact List.mem_append_right _ (by simp)
    · exact ih ((insertOne db x).1) hmem

/-- An active voucher's record appears in the export document whenever the
active set fits in the export page. -/
theorem mem_exportRecords (db : DB) (w : Voucher) (hw : w ∈ activeVouchers db)
    (hcap : (activeVouchers db).length ≤ 100000) :
    voucherRecord w ∈ exportRecords db := by
  unfold exportRecords exportRows
  apply List.mem_cons_of_mem
  apply List.mem_map.mpr
  refine ⟨w, ?_, rfl⟩
  rw [List.take_of_length_le]
  · unfold sortByCreated
    exact (List.mem_insertionSort _).mpr hw
  · unfold sortByCreated
    rw [List.length_insertionSort]
    exact hcap

/-- C9 amended: a record accepted by CSV import is, provided the post-import
active set fits in the 100000-row export page, present in a subsequent
export as the row (trimmed code, `%.2f` of the parsed discount, canonical
`YYYY-MM-DD` of the parsed date) — the normalized input. -/
theorem c9_amended_roundtrip (clock : Clock) (db : DB)
    (records : List (List String)) (r : List String) (v : NewVoucher)
    (hr : r ∈ records.drop 1)
    (hok : (parseCSVRow clock db r).1 = .ok v)
    (hcap : (activeVouchers (ImportVouchers clock db records none).db).length
      ≤ 100000) :
    [v.voucherCode, fmt2 v.discountPercent, formatDate v.expiryDate] ∈
      exportRecords (ImportVouchers clock db records none).db ∧
    (∃ c0 c1 c2 rest, r = c0 :: c1 :: c2 :: rest ∧
      v.voucherCode = trimStr c0 ∧
      parseDiscount (trimStr c1) = some v.discountPercent ∧
      parseDate (trimStr c2) = some v.expiryDate) := by
  have hlen2 : ¬ records.length < 2 := by
    have h0 := List.length_pos_of_mem hr
    rw [List.length_drop] at h0
    omega
  have hmemv := csvLoop_valid_mem clock db (records.drop 1) 2 r hr v hok
  have hne : ¬ (csvLoop clock db (records.drop 1) 2).2.1 = [] :=
    List.ne_nil_of_mem hmemv
  have hdb : (ImportVouchers clock db records none).db =
      bulkInsert db (csvLoop clock db (records.drop 1) 2).2.1 := by
    unfold ImportVouchers
    rw [if_neg hlen2, if_neg hne]
  obtain ⟨w, hwmem, hwc, hwd, hwe, hwdel⟩ := bulkInsert_mem _ db v hmemv
  have hwactive : w ∈ activeVouchers (ImportVouchers clock db records none).db := by
    rw [hdb]
    exact List.mem_filter.mpr ⟨hwmem, by rw [hwdel]; rfl⟩
  constructor
  · have hrec := mem_exportRecords _ w hwactive hcap
    rw [show voucherRecord w =
      [v.voucherCode, fmt2 v.discountPercent, formatDate v.expiryDate] from by
        unfold voucherRecord
        rw [hwc, hwd, hwe]] at hrec
    exact hrec
  · exact parseCSVRow_ok_inv clock db r v hok

/-- Witness for the amended C9: importing the single row `A,10,2099-01-01`
into the small state and exporting yields the normalized row. -/
theorem c9_amended_witness :
    ((parseCSVRow wClock wDB ["A", "10", "2099-01-01"]).1 =
      .ok ⟨"A", 10, ⟨2099, 1, 1⟩⟩) ∧
    (["A", fmt2 10, formatDate ⟨2099, 1, 1⟩] ∈
      exportRecords (ImportVouchers wClock wDB
        [csvHeader, ["A", "10", "2099-01-01"]] none).db ∧
    (∃ c0 c1 c2 rest,
      (["A", "10", "2099-01-01"] : List String) = c0 :: c1 :: c2 :: rest ∧
      ("A" : String) = trimStr c0 ∧
      parseDiscount (trimStr c1) = some 10 ∧
      parseDate (trimStr c2) = some ⟨2099, 1, 1⟩)) :=
  ⟨by decide,
    c9_amended_roundtrip wClock wDB [csvHeader, ["A", "10", "2099-01-01"]]
      ["A", "10", "2099-01-01"] ⟨"A", 10, ⟨2099, 1, 1⟩⟩
      (by decide) (by decide) (by decide)⟩

/-- Inserting an element bound above the pivot commutes with appending the
pivot. -/
theorem orderedInsert_append_last {α : Type} (r : α → α → Prop) [DecidableRel r]
    (x t : α) (a : List α) (hxt : r x t) :
    (a ++ [t]).orderedInsert r x = a.orderedInsert r x ++ [t] := by
  induction a with
  | nil => simp [List.orderedInsert, hxt]
  | cons b bs ih =>
    by_cases hb : r x b
    · simp [List.orderedInsert, hb]
    · simp [List.orderedInsert, hb, ih]

/-- Sorting a list with a maximal element appended keeps that element last. -/
theorem insertionSort_append_last {α : Type} (r : α → α → Prop) [DecidableRel r]
    (l : List α) (t : α) (h : ∀ x ∈ l, r x t) :
    (l ++ [t]).insertionSort r = l.insertionSort r ++ [t] := by
  induction l with
  | nil => simp [List.insertionSort]
  | cons x xs ih =>
    simp only [List.cons_append, List.insertionSort, List.append_eq]
    rw [ih (fun y hy => h y (List.mem_cons_of_mem x hy))]
    exact orderedInsert_append_last r x t _ (h x (List.mem_cons_self x xs))

/-- No filler code collides with "NEW". -/
theorem mkNth_code_ne (i : Nat) : (mkNth i).voucherCode ≠ "NEW" := by
  unfold mkNth natToString
  intro h
  have hd := congrArg String.data h
  rw [String.data_append] at hd
  have hd2 : 'C' :: natDigitsAux (i + 1) i [] = ['N', 'E', 'W'] := hd
  injection hd2 with hc _
  exact absurd hc (by decide)

/-- "NEW" is not stored in the full pre-state. -/
theorem preDB_find_new_none : findByVoucherCode preDB "NEW" = none := by
  apply findByVoucherCode_eq_none
  intro hmem
  unfold activeCodes at hmem
  rw [show activeVouchers preDB = (List.range 100000).map mkNth from
    activeVouchers_range_map 100000 100001 100000] at hmem
  rcases List.mem_map.mp hmem with ⟨w, hw, hcode⟩
  rcases List.mem_map.mp hw with ⟨i, _, rfl⟩
  exact mkNth_code_ne i hcode

/-- The fresh row parses and validates against any state not holding "NEW". -/
theorem parseCSVRow_new_row (db' : DB) (hf : findByVoucherCode db' "NEW" = none) :
    parseCSVRow wClock db' newRecord =
      (.ok ⟨"NEW", 10, ⟨2099, 1, 1⟩⟩, [.findByCode "NEW"]) := by
  unfold parseCSVRow newRecord
  simp +decide [show trimStr "NEW" = "NEW" from by decide,
    show trimStr "10" = "10" from by decide,
    show trimStr "2099-01-01" = "2099-01-01" from by decide,
    hf, show parseDiscount "10" = some 10 from by decide,
    show parseDate "2099-01-01" = some ⟨2099, 1, 1⟩ from by decide]

/-- The one-row CSV loop over the fresh row. -/
theorem csvLoop_new_row (db' : DB) (hf : findByVoucherCode db' "NEW" = none) :
    csvLoop wClock db' [newRecord] 2 =
      ([], [⟨"NEW", 10, ⟨2099, 1, 1⟩⟩], [.findByCode "NEW"]) := by
  simp [csvLoop, parseCSVRow_new_row db' hf]

/-- Inserting the fresh voucher appends it after the 100000 filler rows. -/
theorem bulkInsert_preDB_rows :
    (bulkInsert preDB [⟨"NEW", 10, ⟨2099, 1, 1⟩⟩]).rows =
      (List.range 100000).map mkNth ++
        [⟨100001, "NEW", 10, ⟨2099, 1, 1⟩, 100000, false⟩] := by
  unfold bulkInsert insertOne preDB
  dsimp only
  unfold bulkInsert
  dsimp only

/-- C9 counterexample: with 100000 active vouchers already stored, the row
`NEW,10,2099-01-01` is accepted and inserted by CSV import, yet the
subsequent export (no other writes) does not contain its normalized row —
the new voucher has the latest creation time, sorts last, and is cut off by
the 100000-row export page, so the round-trip claim fails for this state. -/
theorem c9_counterexample :
    (parseCSVRow wClock preDB newRecord).1 = .ok ⟨"NEW", 10, ⟨2099, 1, 1⟩⟩ ∧
    (ImportVouchers wClock preDB [csvHeader, newRecord] none).res =
      .ok ⟨1, 1, 0, []⟩ ∧
    ["NEW", "10.00", "2099-01-01"] ∉
      exportRecords (ImportVouchers wClock preDB [csvHeader, newRecord] none).db := by
  have himp : ImportVouchers wClock preDB [csvHeader, newRecord] none =
      ⟨.ok ⟨1, 1, 0, []⟩, bulkInsert preDB [⟨"NEW", 10, ⟨2099, 1, 1⟩⟩],
        [.findByCode "NEW", .bulkCreate [⟨"NEW", 10, ⟨2099, 1, 1⟩⟩]]⟩ := by
    unfold ImportVouchers
    rw [if_neg (by decide : ¬ ([csvHeader, newRecord] : List (List String)).length < 2)]
    rw [show ([csvHeader, newRecord] : List (List String)).drop 1 = [newRecord]
      from rfl]
    rw [csvLoop_new_row preDB preDB_find_new_none]
    dsimp only
    rw [if_neg (by decide :
      ¬ ([⟨"NEW", (10 : ℚ), ⟨2099, 1, 1⟩⟩] : List NewVoucher) = [])]
    rfl
  refine ⟨by rw [parseCSVRow_new_row preDB preDB_find_new_none],
    by rw [himp], ?_⟩
  rw [himp]
  have hactive : activeVouchers (bulkInsert preDB [⟨"NEW", 10, ⟨2099, 1, 1⟩⟩]) =
      (List.range 100000).map mkNth ++
        [⟨100001, "NEW", 10, ⟨2099, 1, 1⟩, 100000, false⟩] := by
    unfold activeVouchers
    rw [bulkInsert_preDB_rows, List.filter_append]
    rw [show ((List.range 100000).map mkNth).filter (fun v => !v.deleted) =
      (List.range 100000).map mkNth from List.filter_eq_self.mpr (by
        intro v hv
        rcases List.mem_map.mp hv with ⟨i, _, rfl⟩
        rfl)]
    rfl
  have hsort : sortByCreated ((List.range 100000).map mkNth ++
      [⟨100001, "NEW", 10, ⟨2099, 1, 1⟩, 100000, false⟩]) =
      sortByCreated ((List.range 100000).map mkNth) ++
        [⟨100001, "NEW", 10, ⟨2099, 1, 1⟩, 100000, false⟩] := by
    unfold sortByCreated
    apply insertionSort_append_last
    intro x hx
    rcases List.mem_map.mp hx with ⟨i, hi, rfl⟩
    have : i < 100000 := List.mem_range.mp hi
    show (mkNth i).createdAt ≤ 100000
    unfold mkNth
    dsimp only
    omega
  have hlen : (sortByCreated ((List.range 100000).map mkNth)).length = 100000 := by
    unfold sortByCreated
    rw [List.length_insertionSort, List.length_map, List.length_range]
  unfold exportRecords exportRows
  rw [hactive, hsort, List.take_left' hlen]
  intro hmem
  rcases List.mem_cons.mp hmem with hhd | htl
  · exact absurd hhd (by decide)
  · rcases List.mem_map.mp htl with ⟨w, hw, hrec⟩
    have hw2 : w ∈ (List.range 100000).map mkNth := by
      unfold sortByCreated at hw
      exact (List.mem_insertionSort _).mp hw
    rcases List.mem_map.mp hw2 with ⟨i, _, rfl⟩
    unfold voucherRecord at hrec
    injection hrec with h1 _
    exact mkNth_code_ne i h1
